import Mathlib

/-!
Verification of the joycontrol socket command interface.

This file gives a shallow embedding of the two source files
`joycontrol/socket_interface.py` and `run_controller_socket.py`:
the line parser and command dispatcher (`handle_line`), the stick
command logic (`cmd_stick` / `set_stick`), the command registry
(`add_command`), and the registered handlers `hold`, `release` and
`nfc`.  Python exceptions are modelled as values of `CmdError`;
code that may leave partial mutations behind before failing returns
the post-state together with an `Except` outcome.

External collaborators that live outside the embedded sources
(the stick axis objects, the button state, and the device link's
`send`) are modelled from the specification; their definitions are
marked `Modelled from the spec:` in their doc comments.
-/

set_option autoImplicit false

/-- The controller variant being emulated (`Controller` enum in joycontrol). -/
inductive ControllerKind
  | JOYCON_L
  | JOYCON_R
  | PRO_CONTROLLER
  deriving DecidableEq, Repr

/-- Printable name of a controller variant, used in error messages. -/
def ControllerKind.name : ControllerKind → String
  | .JOYCON_L => "Controller.JOYCON_L"
  | .JOYCON_R => "Controller.JOYCON_R"
  | .PRO_CONTROLLER => "Controller.PRO_CONTROLLER"

/-- The distinct failure conditions raised by the embedded code.  Each
constructor corresponds to one `raise` site (or one external failure kind)
in the sources; `message` below mirrors the Python exception text. -/
inductive CmdError
  | missingValue
  | invalidValue (value : String)
  | invalidDirection (direction : String)
  | invalidSide
  | unsupportedOperation
  | missingArgument
  | invalidButton (button : String) (kind : ControllerKind)
  | missingButtonArg (cmdName : String)
  | duplicateCommand (cmdName : String)
  | notConnected
  | parseError
  | fileError (path : String)
  | arityError (cmdName : String)
  deriving DecidableEq, Repr

/-- The Python exception text of each failure, as printed by the dispatcher. -/
def CmdError.message : CmdError → String
  | .missingValue => "Missing value"
  | .invalidValue v => "Unexpected stick value \"" ++ v ++ "\""
  | .invalidDirection d => "Unexpected argument \"" ++ d ++ "\""
  | .invalidSide => "Value of side must be \"l\", \"left\" or \"r\", \"right\""
  | .unsupportedOperation => "NFC content cannot be set for JOYCON_L"
  | .missingArgument => "\"nfc\" command requires file path to an nfc dump as argument!"
  | .invalidButton b k => "Button " ++ b ++ " does not exist on " ++ k.name
  | .missingButtonArg c => "\"" ++ c ++ "\" command requires a button!"
  | .duplicateCommand c => "Command " ++ c ++ " already registered."
  | .notConnected => "NotConnectedError"
  | .parseError => "ValueError: values to unpack"
  | .fileError p => "OSError: cannot open " ++ p
  | .arityError c => "TypeError: unexpected arguments for " ++ c

/-- Modelled from the spec: the calibration data giving each stick axis its
preset positions (center / up / down / left / right are absolute presets). -/
structure StickCalibration where
  h_center : Int
  v_center : Int
  h_max : Int
  v_max : Int
  h_min : Int
  v_min : Int
  deriving DecidableEq, Repr

/-- Modelled from the spec: a stick axis state with horizontal and vertical
integer components, owned by the device state. -/
structure StickState where
  cal : StickCalibration
  h : Int
  v : Int
  deriving DecidableEq, Repr

/-- Modelled from the spec: direct numeric set of the horizontal component. -/
def StickState.set_h (s : StickState) (val : Int) : StickState :=
  { s with h := val }

/-- Modelled from the spec: direct numeric set of the vertical component. -/
def StickState.set_v (s : StickState) (val : Int) : StickState :=
  { s with v := val }

/-- Modelled from the spec: the absolute `center` preset. -/
def StickState.set_center (s : StickState) : StickState :=
  { s with h := s.cal.h_center, v := s.cal.v_center }

/-- Modelled from the spec: the absolute `up` preset. -/
def StickState.set_up (s : StickState) : StickState :=
  { s with h := s.cal.h_center, v := s.cal.v_max }

/-- Modelled from the spec: the absolute `down` preset. -/
def StickState.set_down (s : StickState) : StickState :=
  { s with h := s.cal.h_center, v := s.cal.v_min }

/-- Modelled from the spec: the absolute `left` preset. -/
def StickState.set_left (s : StickState) : StickState :=
  { s with h := s.cal.h_min, v := s.cal.v_center }

/-- Modelled from the spec: the absolute `right` preset. -/
def StickState.set_right (s : StickState) : StickState :=
  { s with h := s.cal.h_max, v := s.cal.v_center }

/-- Python `str.startswith`, over the code points of the strings. -/
def strStarts (s p : String) : Bool :=
  p.data.isPrefixOf s.data

/-- Splitting a character list at every occurrence of a separator. -/
def splitChars (sep : Char) : List Char → List (List Char)
  | [] => [[]]
  | c :: rest =>
    match splitChars sep rest with
    | [] => [[]]
    | g :: gs => if c = sep then [] :: g :: gs else (c :: g) :: gs

/-- Python `line.split(":")`. -/
def splitOnColon (line : String) : List String :=
  (splitChars ':' line.data).map String.mk

/-- Reading a decimal numeral: `none` unless the list is non-empty and all
digits. -/
def parseNatDigits (cs : List Char) : Option Nat :=
  if cs.isEmpty then none
  else
    cs.foldl
      (fun acc c =>
        match acc with
        | none => none
        | some n => if c.isDigit then some (n * 10 + (c.toNat - 48)) else none)
      (some 0)

/-- Python `int(value)` on the strings the stick command receives: an
optional sign followed by decimal digits; anything else fails. -/
def parseInt? (s : String) : Option Int :=
  match s.data with
  | '-' :: rest => (parseNatDigits rest).map (fun n => -(n : Int))
  | '+' :: rest => (parseNatDigits rest).map (fun n => (n : Int))
  | cs => (parseNatDigits cs).map (fun n => (n : Int))

/-- The result string built at the end of `_set_stick`:
`f'{stick.__class__.__name__} was set to ({stick.get_h()}, {stick.get_v()}).'` -/
def stickMsg (s : StickState) : String :=
  "StickState was set to (" ++ toString s.h ++ ", " ++ toString s.v ++ ")."

/-- Embedding of `ControllerSocketInterface._set_stick`: dispatch on the
`direction` token, either applying a preset, setting one axis directly from
the string `value`, or raising.  Returns the updated stick and the result
message on success. -/
def set_stick (stick : StickState) (direction : String) (value : Option String) :
    Except CmdError (StickState × String) :=
  if direction = "center" then
    .ok (stick.set_center, stickMsg stick.set_center)
  else if direction = "up" then
    .ok (stick.set_up, stickMsg stick.set_up)
  else if direction = "down" then
    .ok (stick.set_down, stickMsg stick.set_down)
  else if direction = "left" then
    .ok (stick.set_left, stickMsg stick.set_left)
  else if direction = "right" then
    .ok (stick.set_right, stickMsg stick.set_right)
  else if direction = "h" ∨ direction = "horizontal" then
    match value with
    | none => .error .missingValue
    | some s =>
      match parseInt? s with
      | none => .error (.invalidValue s)
      | some n => .ok (stick.set_h n, stickMsg (stick.set_h n))
  else if direction = "v" ∨ direction = "vertical" then
    match value with
    | none => .error .missingValue
    | some s =>
      match parseInt? s with
      | none => .error (.invalidValue s)
      | some n => .ok (stick.set_v n, stickMsg (stick.set_v n))
  else
    .error (.invalidDirection direction)

/-- Modelled from the spec: the device's button state, an enumeration of
valid button identifiers plus the set of currently pressed buttons. -/
structure ButtonState where
  available : List String
  pressed : List String
  deriving DecidableEq, Repr

/-- Modelled from the spec: the aggregate device state consumed by the core:
controller variant, button state, the two stick axis instances, the optional
tag payload, and whether the device link is connected. -/
structure ControllerState where
  controller : ControllerKind
  button_state : ButtonState
  l_stick : StickState
  r_stick : StickState
  nfc_content : Option (List Nat)
  connected : Bool
  deriving DecidableEq, Repr

/-- Modelled from the spec: the tag-payload setter (`set_nfc`), accepting
binary content or none. -/
def ControllerState.set_nfc (st : ControllerState) (c : Option (List Nat)) :
    ControllerState :=
  { st with nfc_content := c }

/-- Modelled from the spec: the asynchronous flush (`send`), which pushes the
current state to the device link and fails with the distinguished
not-connected condition when the link is down. -/
def ControllerState.send (st : ControllerState) : Except CmdError ControllerState :=
  if st.connected then .ok st else .error .notConnected

/-- The outcome of running one command handler: the (possibly partially
mutated) device state, diagnostic lines emitted while running, the delays of
any detached clear tasks scheduled, and the handler's result — an optional
result string on success, or the raised failure. -/
structure HandlerResult where
  state : ControllerState
  printed : List String
  scheduled : List Nat
  outcome : Except CmdError (Option String)

/-- A command handler: a function from the argument list and the current
device state to a `HandlerResult` (registry-sourced and built-in handlers
share this shape). -/
def Handler : Type :=
  List String → ControllerState → HandlerResult

/-- First-match association-list lookup, embedding Python dictionary lookup
for string keys (registry names are unique, so first match is the match). -/
def lookupAssoc {β : Type} : List (String × β) → String → Option β
  | [], _ => none
  | (k, v) :: rest, name => if k = name then some v else lookupAssoc rest name

/-- Embedding of `ControllerSocketInterface`: the command registry plus the
controller state the built-in command operates on. -/
structure ControllerSocketInterface where
  commands : List (String × Handler)
  controller_state : ControllerState

/-- Embedding of `SocketInterface.add_command`: raise `DuplicateCommand` when
the name is already registered, otherwise insert. -/
def add_command (ci : ControllerSocketInterface) (name : String) (command : Handler) :
    Except CmdError ControllerSocketInterface :=
  if (lookupAssoc ci.commands name).isSome then
    .error (.duplicateCommand name)
  else
    .ok { ci with commands := ci.commands ++ [(name, command)] }

/-- Embedding of `ControllerSocketInterface.cmd_stick`: select the stick by
`side` (raising `InvalidSide` otherwise, before any axis is touched) and
apply `set_stick` to it. -/
def cmd_stick (side direction : String) (value : Option String)
    (st : ControllerState) : HandlerResult :=
  if side = "l" ∨ side = "left" then
    match set_stick st.l_stick direction value with
    | .ok (s2, msg) => ⟨{ st with l_stick := s2 }, [], [], .ok (some msg)⟩
    | .error e => ⟨st, [], [], .error e⟩
  else if side = "r" ∨ side = "right" then
    match set_stick st.r_stick direction value with
    | .ok (s2, msg) => ⟨{ st with r_stick := s2 }, [], [], .ok (some msg)⟩
    | .error e => ⟨st, [], [], .error e⟩
  else
    ⟨st, [], [], .error .invalidSide⟩

/-- Embedding of `ensure_valid_button` from `run_controller_socket.py`:
raise on the first button that is not in the device's advertised set. -/
def ensure_valid_button (st : ControllerState) : List String → Except CmdError Unit
  | [] => .ok ()
  | b :: rest =>
    if b ∈ st.button_state.available then ensure_valid_button st rest
    else .error (.invalidButton b st.controller)

/-- Modelled from the spec: `button_press` from the external device state,
marking each given button as pressed. -/
def button_press (st : ControllerState) (buttons : List String) : ControllerState :=
  { st with button_state :=
      { st.button_state with
        pressed := buttons.foldl
          (fun acc b => if b ∈ acc then acc else acc ++ [b])
          st.button_state.pressed } }

/-- Modelled from the spec: `button_release` from the external device state,
marking each given button as no longer pressed. -/
def button_release (st : ControllerState) (buttons : List String) : ControllerState :=
  { st with button_state :=
      { st.button_state with
        pressed := st.button_state.pressed.filter (fun b => !(buttons.contains b)) } }

/-- Embedding of the registered `hold` command: require at least one button,
validate every button, then press them all. -/
def hold (st : ControllerState) (args : List String) : HandlerResult :=
  if args.isEmpty then
    ⟨st, [], [], .error (.missingButtonArg "hold")⟩
  else
    match ensure_valid_button st args with
    | .error e => ⟨st, [], [], .error e⟩
    | .ok _ =>
      ⟨button_press st args, ["Holding " ++ String.intercalate " " args], [], .ok none⟩

/-- Embedding of the registered `release` command: require at least one
button, validate every button, then release them all. -/
def release (st : ControllerState) (args : List String) : HandlerResult :=
  if args.isEmpty then
    ⟨st, [], [], .error (.missingButtonArg "release")⟩
  else
    match ensure_valid_button st args with
    | .error e => ⟨st, [], [], .error e⟩
    | .ok _ =>
      ⟨button_release st args, ["Releasing " ++ String.intercalate " " args], [], .ok none⟩

/-- Embedding of the registered `nfc` command.  The ambient filesystem is an
association list from path to binary content; a missing entry models a file
that cannot be opened or read.  Order follows the source: variant check,
empty-path check, immediate clear (`clear_nfc(0)`), file read, payload set,
then scheduling of the detached delayed clear. -/
def nfc (fs : List (String × List Nat)) (file_path : String) (sec : Nat)
    (st : ControllerState) : HandlerResult :=
  if st.controller = ControllerKind.JOYCON_L then
    ⟨st, [], [], .error .unsupportedOperation⟩
  else if file_path = "" then
    ⟨st, [], [], .error .missingArgument⟩
  else
    let st1 := st.set_nfc none
    match lookupAssoc fs file_path with
    | none => ⟨st1, ["Clearing NFC content"], [], .error (.fileError file_path)⟩
    | some content =>
      ⟨st1.set_nfc (some content),
        ["Clearing NFC content", "Setting NFC content: " ++ file_path],
        [sec], .ok none⟩

/-- The `hold` closure as registered in the command registry. -/
def hold_command : Handler := fun args st => hold st args

/-- The `release` closure as registered in the command registry. -/
def release_command : Handler := fun args st => release st args

/-- The `nfc` closure as registered in the command registry: one positional
argument (the path) — the socket parser only ever produces one — so the
delay keeps its default of 3 seconds; any other arity is a `TypeError` at
call time. -/
def nfc_command (fs : List (String × List Nat)) : Handler := fun args st =>
  match args with
  | [p] => nfc fs p 3 st
  | _ => ⟨st, [], [], .error (.arityError "nfc")⟩

/-- Embedding of `hasattr(self, f'cmd_{cmd}')` for `ControllerSocketInterface`:
the class defines exactly one `cmd_`-prefixed method, `cmd_stick`. -/
def has_cmd_attr (cmd : String) : Bool :=
  cmd = "stick"

/-- Running the built-in method `cmd_{cmd}` on an argument list: `cmd_stick`
takes a side, a direction, and an optional value; any other arity is a
`TypeError` at call time. -/
def run_builtin (cmd : String) (args : List String) (st : ControllerState) :
    HandlerResult :=
  if cmd = "stick" then
    match args with
    | [side, direction] => cmd_stick side direction none st
    | [side, direction, v] => cmd_stick side direction (some v) st
    | _ => ⟨st, [], [], .error (.arityError "stick")⟩
  else
    ⟨st, [], [], .error (.arityError cmd)⟩

/-- Embedding of the parse section of `handle_line` (lines 105-126): build
`(cmd, args)` from a non-empty line.  A line starting with `btn:` or
`stick:` whose colon-separated field count does not match the unpacking
pattern raises a `ValueError` at the split — outside any try block. -/
def parse_line (line : String) : Except CmdError (String × List String) :=
  if strStarts line "btn:" then
    match splitOnColon line with
    | [_, button, pressed] =>
      if pressed = "true" then .ok ("hold", [button])
      else .ok ("release", [button])
    | _ => .error .parseError
  else if strStarts line "stick:" then
    match splitOnColon line with
    | [_, stick, direction, pressed] =>
      if pressed = "true" then .ok ("stick", [stick, direction])
      else .ok ("stick", [stick, "center"])
    | _ => .error .parseError
  else if strStarts line "nfc:" then
    .ok ("nfc", [String.mk (line.data.drop 4)])
  else
    .ok ("", [])

/-- The not-found diagnostic printed by the dispatcher. -/
def notFoundMsg (cmd : String) : String :=
  "command " ++ cmd ++ " not found, call help for help."

/-- State, diagnostics and scheduled tasks after the dispatch section of
`handle_line` (handler executed with containment, or not-found reported). -/
structure DispatchResult where
  state : ControllerState
  printed : List String
  scheduled : List Nat

/-- Print a handler's outcome the way the dispatcher does: a non-empty
result string is printed (`if result: print(result)`), a raised failure is
caught and its message printed. -/
def reportOutcome (r : HandlerResult) : DispatchResult :=
  match r.outcome with
  | .ok none => ⟨r.state, r.printed, r.scheduled⟩
  | .ok (some m) => ⟨r.state, r.printed ++ (if m = "" then [] else [m]), r.scheduled⟩
  | .error e => ⟨r.state, r.printed ++ [e.message], r.scheduled⟩

/-- Embedding of the dispatch section of `handle_line` (lines 128-143): a
built-in `cmd_{cmd}` method takes precedence, else the registry is
consulted, else the not-found diagnostic is printed.  Handler failures are
contained here and never escape. -/
def dispatch (ci : ControllerSocketInterface) (cmd : String) (args : List String) :
    DispatchResult :=
  if has_cmd_attr cmd then
    reportOutcome (run_builtin cmd args ci.controller_state)
  else
    match lookupAssoc ci.commands cmd with
    | some h => reportOutcome (h args ci.controller_state)
    | none => ⟨ci.controller_state, [notFoundMsg cmd], []⟩

/-- Everything observable about handling one line: the resulting device
state, all local diagnostic output, scheduled clear delays, whether the
flush was attempted, and the failure propagating out of `handle_line` (if
any). -/
structure LineOutcome where
  state : ControllerState
  printed : List String
  scheduled : List Nat
  flushAttempted : Bool
  raised : Option CmdError

/-- Embedding of `ControllerSocketInterface.handle_line`: empty lines return
immediately; a malformed prefixed line raises at the parse; otherwise the
command is dispatched with error containment and the flush (`send`) is
attempted unconditionally, a not-connected failure of the flush being logged
and re-raised. -/
def handle_line (ci : ControllerSocketInterface) (line : String) : LineOutcome :=
  if line = "" then
    ⟨ci.controller_state, [], [], false, none⟩
  else
    match parse_line line with
    | .error e => ⟨ci.controller_state, [], [], false, some e⟩
    | .ok (cmd, args) =>
      let d := dispatch ci cmd args
      match d.state.send with
      | .ok st2 => ⟨st2, d.printed, d.scheduled, true, none⟩
      | .error e => ⟨d.state, d.printed ++ ["Connection was lost."], d.scheduled, true, some e⟩

/-- A calibration with distinct preset values, for concrete instances. -/
def testCal : StickCalibration :=
  ⟨2048, 2048, 3840, 3840, 256, 256⟩

/-- A stick resting at its center, for concrete instances. -/
def testStick : StickState :=
  ⟨testCal, 2048, 2048⟩

/-- A connected Pro-Controller device state, for concrete instances. -/
def testState : ControllerState :=
  ⟨.PRO_CONTROLLER, ⟨["a", "b", "x", "y"], []⟩, testStick, testStick, none, true⟩

/-- A connected left Joy-Con device state (no tag support), for concrete
instances. -/
def testStateL : ControllerState :=
  ⟨.JOYCON_L, ⟨["a", "b", "x", "y"], []⟩, testStick, testStick, none, true⟩

/-- A device state with a tag payload already loaded, for concrete
instances. -/
def testStateLoaded : ControllerState :=
  ⟨.PRO_CONTROLLER, ⟨["a", "b", "x", "y"], []⟩, testStick, testStick, some [9, 9], true⟩

/-- A filesystem with one readable tag dump, for concrete instances. -/
def testFS : List (String × List Nat) :=
  [("amiibo.bin", [1, 2, 3])]

/-- The interface as `_register_commands_with_controller_state` builds it:
`hold`, `release` and `nfc` registered over a connected Pro Controller. -/
def testIface : ControllerSocketInterface :=
  ⟨[("hold", hold_command), ("release", release_command), ("nfc", nfc_command testFS)],
    testState⟩

/-- C9: an empty input line is a complete no-op: nothing is parsed or
dispatched, nothing is printed or scheduled, no flush is attempted, nothing
is raised, and the device state is returned unchanged. -/
theorem empty_line_noop (ci : ControllerSocketInterface) :
    handle_line ci "" = ⟨ci.controller_state, [], [], false, none⟩ := by
  unfold handle_line
  simp

/-- C1: for every command line that parses, `handle_line` contains every
handler failure (nothing but a not-connected flush failure is ever raised),
the flush is attempted unconditionally, and the not-connected failure
propagates exactly when the device link is down after dispatch. -/
theorem handled_line_contains_failures (ci : ControllerSocketInterface)
    (line cmd : String) (args : List String)
    (hne : line ≠ "") (hp : parse_line line = .ok (cmd, args)) :
    (handle_line ci line).flushAttempted = true ∧
    ((handle_line ci line).raised = none ∨
      (handle_line ci line).raised = some CmdError.notConnected) ∧
    ((handle_line ci line).raised = some CmdError.notConnected ↔
      (dispatch ci cmd args).state.connected = false) := by
  unfold handle_line
  rw [if_neg hne, hp]
  simp only [ControllerState.send]
  by_cases hc : (dispatch ci cmd args).state.connected
  · simp [hc]
  · simp [hc]

/-- Witness for C1 at a concrete dispatched line. -/
theorem handled_line_contains_failures_witness :
    (handle_line testIface "nfc:amiibo.bin").flushAttempted = true ∧
    ((handle_line testIface "nfc:amiibo.bin").raised = none ∨
      (handle_line testIface "nfc:amiibo.bin").raised = some CmdError.notConnected) ∧
    ((handle_line testIface "nfc:amiibo.bin").raised = some CmdError.notConnected ↔
      (dispatch testIface "nfc" ["amiibo.bin"]).state.connected = false) :=
  handled_line_contains_failures testIface "nfc:amiibo.bin" "nfc" ["amiibo.bin"]
    (by decide) rfl

/-- C2 counterexample: the line `btn:a` is non-empty and matches no rule of
the command grammar, yet it is not treated as a not-found outcome: the
unpacking failure at the parse is raised to the caller, nothing is printed,
and no flush is attempted. -/
theorem unparsable_line_raises :
    (handle_line testIface "btn:a").raised = some CmdError.parseError ∧
    (handle_line testIface "btn:a").flushAttempted = false ∧
    (handle_line testIface "btn:a").printed = [] :=
  ⟨rfl, rfl, rfl⟩

/-- C2 as amended: for every non-empty line carrying none of the recognized
prefixes (and with the empty command name unregistered), the line is a
not-found outcome: the not-found diagnostic is printed, a flush is still
attempted, and nothing beyond a not-connected flush failure is raised. -/
theorem unrecognized_line_not_found (ci : ControllerSocketInterface) (line : String)
    (hne : line ≠ "")
    (hb : strStarts line "btn:" = false)
    (hs : strStarts line "stick:" = false)
    (hn : strStarts line "nfc:" = false)
    (hreg : lookupAssoc ci.commands "" = none) :
    (handle_line ci line).flushAttempted = true ∧
    notFoundMsg "" ∈ (handle_line ci line).printed ∧
    ((handle_line ci line).raised = none ∨
      (handle_line ci line).raised = some CmdError.notConnected) := by
  have hp : parse_line line = .ok ("", []) := by
    unfold parse_line
    rw [hb, hs, hn]
    simp
  have hd : dispatch ci "" [] = ⟨ci.controller_state, [notFoundMsg ""], []⟩ := by
    unfold dispatch
    rw [hreg]
    simp [has_cmd_attr]
  unfold handle_line
  rw [if_neg hne, hp]
  dsimp only
  rw [hd]
  simp only [ControllerState.send]
  by_cases hc : ci.controller_state.connected
  · simp [hc]
  · simp [hc]

/-- Witness for the amended C2 at the spec's own example line `foo:bar`. -/
theorem unrecognized_line_not_found_witness :
    (handle_line testIface "foo:bar").flushAttempted = true ∧
    notFoundMsg "" ∈ (handle_line testIface "foo:bar").printed ∧
    ((handle_line testIface "foo:bar").raised = none ∨
      (handle_line testIface "foo:bar").raised = some CmdError.notConnected) :=
  unrecognized_line_not_found testIface "foo:bar" (by decide) (by decide) (by decide)
    (by decide) rfl

/-- Appending a fresh binding to an association list makes its key
resolvable to the new value. -/
theorem lookupAssoc_append_self {β : Type} (l : List (String × β)) (name : String) (v : β)
    (hnone : lookupAssoc l name = none) :
    lookupAssoc (l ++ [(name, v)]) name = some v := by
  induction l with
  | nil => simp [lookupAssoc]
  | cons p rest ih =>
    obtain ⟨k, w⟩ := p
    by_cases hk : k = name
    · simp [lookupAssoc, hk] at hnone
    · simp only [List.cons_append, lookupAssoc, if_neg hk] at hnone ⊢
      exact ih hnone

/-- C6: handler resolution is a fixed precedence given the registry: a
built-in `cmd_`-named handler wins (whatever the registry holds), else the
registry entry is used, else the command is reported not found. -/
theorem resolution_precedence (st : ControllerState)
    (reg reg2 : List (String × Handler)) (cmd : String) (args : List String) :
    (has_cmd_attr cmd = true →
      dispatch ⟨reg, st⟩ cmd args = reportOutcome (run_builtin cmd args st) ∧
      dispatch ⟨reg, st⟩ cmd args = dispatch ⟨reg2, st⟩ cmd args) ∧
    (has_cmd_attr cmd = false → ∀ h, lookupAssoc reg cmd = some h →
      dispatch ⟨reg, st⟩ cmd args = reportOutcome (h args st)) ∧
    (has_cmd_attr cmd = false → lookupAssoc reg cmd = none →
      dispatch ⟨reg, st⟩ cmd args = ⟨st, [notFoundMsg cmd], []⟩) := by
  refine ⟨fun hb => ?_, fun hb h hl => ?_, fun hb hl => ?_⟩
  · constructor <;> · unfold dispatch; rw [hb]; simp
  · unfold dispatch
    rw [hb]
    simp only [Bool.false_eq_true, if_false]
    rw [hl]
  · unfold dispatch
    rw [hb]
    simp only [Bool.false_eq_true, if_false]
    rw [hl]

/-- Witness for C6: the built-in `stick` shadows a registry entry of the
same name, a registered `hold` is used when no built-in exists, and an
unknown name resolves to not-found. -/
theorem resolution_precedence_witness :
    (dispatch ⟨[("stick", hold_command)], testState⟩ "stick" ["l", "up"] =
      dispatch ⟨[], testState⟩ "stick" ["l", "up"]) ∧
    (dispatch ⟨[("hold", hold_command)], testState⟩ "hold" ["a"] =
      reportOutcome (hold_command ["a"] testState)) ∧
    (dispatch ⟨[], testState⟩ "help" [] = ⟨testState, [notFoundMsg "help"], []⟩) :=
  ⟨((resolution_precedence testState [("stick", hold_command)] [] "stick" ["l", "up"]).1 rfl).2,
   (resolution_precedence testState [("hold", hold_command)] [] "hold" ["a"]).2.1 rfl
     hold_command rfl,
   (resolution_precedence testState [] [] "help" []).2.2 rfl rfl⟩

/-- C7: registering an occupied name fails with the duplicate-command
condition; registering a fresh name succeeds and the name then resolves to
the registered handler; lookup is total, returning the handler or absent. -/
theorem register_then_resolve (ci : ControllerSocketInterface) (name : String) (h : Handler) :
    ((lookupAssoc ci.commands name).isSome = true →
      add_command ci name h = .error (.duplicateCommand name)) ∧
    (lookupAssoc ci.commands name = none →
      ∃ ci2, add_command ci name h = .ok ci2 ∧ lookupAssoc ci2.commands name = some h) ∧
    (lookupAssoc ci.commands name = none ∨ ∃ h2, lookupAssoc ci.commands name = some h2) := by
  refine ⟨fun hdup => ?_, fun hfree => ?_, ?_⟩
  · unfold add_command
    rw [if_pos hdup]
  · refine ⟨{ ci with commands := ci.commands ++ [(name, h)] }, ?_, ?_⟩
    · unfold add_command
      rw [if_neg (by rw [hfree]; simp)]
    · exact lookupAssoc_append_self ci.commands name h hfree
  · cases hl : lookupAssoc ci.commands name with
    | none => exact Or.inl rfl
    | some h2 => exact Or.inr ⟨h2, rfl⟩

/-- Witness for C7: re-registering `hold` fails; registering a fresh `wave`
succeeds and is resolvable. -/
theorem register_then_resolve_witness :
    (add_command testIface "hold" hold_command = .error (.duplicateCommand "hold")) ∧
    (∃ ci2, add_command testIface "wave" hold_command = .ok ci2 ∧
      lookupAssoc ci2.commands "wave" = some hold_command) :=
  ⟨(register_then_resolve testIface "hold" hold_command).1 rfl,
   (register_then_resolve testIface "wave" hold_command).2.1 rfl⟩

/-- Button validation fails on some offending button of the list whenever
any button of the list is outside the advertised set. -/
theorem ensure_valid_button_fails (st : ControllerState) (args : List String) (b : String)
    (hb : b ∈ args) (hinv : b ∉ st.button_state.available) :
    ∃ b2, b2 ∈ args ∧ b2 ∉ st.button_state.available ∧
      ensure_valid_button st args = .error (.invalidButton b2 st.controller) := by
  induction args with
  | nil => cases hb
  | cons a rest ih =>
    by_cases ha : a ∈ st.button_state.available
    · have hbr : b ∈ rest := by
        rcases List.mem_cons.mp hb with h1 | h1
        · exact absurd (h1 ▸ ha) hinv
        · exact h1
      obtain ⟨b2, h1, h2, h3⟩ := ih hbr
      exact ⟨b2, List.mem_cons_of_mem _ h1, h2, by simp [ensure_valid_button, ha, h3]⟩
    · exact ⟨a, List.mem_cons_self _ _, ha, by simp [ensure_valid_button, ha]⟩

/-- C5: whenever the argument list of `hold` or `release` contains a button
outside the device's advertised set, both commands fail with the
invalid-button validation failure and leave the device state untouched. -/
theorem invalid_button_no_mutation (st : ControllerState) (args : List String) (b : String)
    (hb : b ∈ args) (hinv : b ∉ st.button_state.available) :
    (hold st args).state = st ∧ (release st args).state = st ∧
    ∃ b2, b2 ∈ args ∧ b2 ∉ st.button_state.available ∧
      (hold st args).outcome = .error (.invalidButton b2 st.controller) ∧
      (release st args).outcome = .error (.invalidButton b2 st.controller) := by
  have hne : args.isEmpty = false := by
    cases args with
    | nil => cases hb
    | cons a rest => rfl
  obtain ⟨b2, h1, h2, h3⟩ := ensure_valid_button_fails st args b hb hinv
  unfold hold release
  rw [hne, h3]
  refine ⟨?_, ?_, b2, h1, h2, ?_, ?_⟩ <;> simp

/-- Witness for C5: holding or releasing `a zz` on a device advertising only
`a b x y` fails on `zz` without pressing or releasing anything. -/
theorem invalid_button_no_mutation_witness :
    (hold testState ["a", "zz"]).state = testState ∧
    (release testState ["a", "zz"]).state = testState ∧
    ∃ b2, b2 ∈ ["a", "zz"] ∧ b2 ∉ testState.button_state.available ∧
      (hold testState ["a", "zz"]).outcome = .error (.invalidButton b2 testState.controller) ∧
      (release testState ["a", "zz"]).outcome = .error (.invalidButton b2 testState.controller) :=
  invalid_button_no_mutation testState ["a", "zz"] "zz" (by decide) (by decide)

/-- C3: the `nfc` operation checks the device variant first (failing with
the unsupported-operation condition even on an empty path), then the empty
path (missing-argument), and otherwise clears the current payload, reads the
file, sets its content as the payload, and schedules one detached clear
after the given delay. -/
theorem nfc_step_order (fs : List (String × List Nat)) (p : String) (sec : Nat)
    (st : ControllerState) :
    (st.controller = ControllerKind.JOYCON_L →
      nfc fs p sec st = ⟨st, [], [], .error .unsupportedOperation⟩) ∧
    (st.controller ≠ ControllerKind.JOYCON_L → p = "" →
      nfc fs p sec st = ⟨st, [], [], .error .missingArgument⟩) ∧
    (st.controller ≠ ControllerKind.JOYCON_L → p ≠ "" →
      ∀ content, lookupAssoc fs p = some content →
        nfc fs p sec st =
          ⟨(st.set_nfc none).set_nfc (some content),
            ["Clearing NFC content", "Setting NFC content: " ++ p], [sec], .ok none⟩) := by
  refine ⟨fun hL => ?_, fun hL hp => ?_, fun hL hp content hc => ?_⟩
  · unfold nfc
    rw [if_pos hL]
  · unfold nfc
    rw [if_neg hL, if_pos hp]
  · unfold nfc
    rw [if_neg hL, if_neg hp]
    dsimp only
    rw [hc]

/-- Witness for C3: unsupported on a left Joy-Con even with an empty path,
missing-argument on an empty path, and the full clear-read-set-schedule
sequence on a readable dump. -/
theorem nfc_step_order_witness :
    (nfc testFS "" 3 testStateL = ⟨testStateL, [], [], .error .unsupportedOperation⟩) ∧
    (nfc testFS "" 3 testState = ⟨testState, [], [], .error .missingArgument⟩) ∧
    (nfc testFS "amiibo.bin" 3 testState =
      ⟨(testState.set_nfc none).set_nfc (some [1, 2, 3]),
        ["Clearing NFC content", "Setting NFC content: amiibo.bin"], [3], .ok none⟩) :=
  ⟨(nfc_step_order testFS "" 3 testStateL).1 rfl,
   (nfc_step_order testFS "" 3 testState).2.1 (by decide) rfl,
   (nfc_step_order testFS "amiibo.bin" 3 testState).2.2 (by decide) (by decide) [1, 2, 3] rfl⟩

/-- C10: `nfc` is not atomic on failure: on a tag-capable variant with a
non-empty path whose file cannot be read, the command fails, yet the
previously loaded payload has already been cleared, and no delayed clear is
scheduled. -/
theorem nfc_clears_before_read (fs : List (String × List Nat)) (p : String) (sec : Nat)
    (st : ControllerState)
    (hL : st.controller ≠ ControllerKind.JOYCON_L) (hp : p ≠ "")
    (hfs : lookupAssoc fs p = none) :
    nfc fs p sec st =
      ⟨st.set_nfc none, ["Clearing NFC content"], [], .error (.fileError p)⟩ ∧
    (nfc fs p sec st).state.nfc_content = none ∧
    (nfc fs p sec st).scheduled = [] := by
  have heq : nfc fs p sec st =
      ⟨st.set_nfc none, ["Clearing NFC content"], [], .error (.fileError p)⟩ := by
    unfold nfc
    rw [if_neg hL, if_neg hp]
    dsimp only
    rw [hfs]
  exact ⟨heq, by rw [heq]; rfl, by rw [heq]⟩

/-- Witness for C10: a failing read on a state holding a payload leaves the
payload cleared. -/
theorem nfc_clears_before_read_witness :
    (nfc testFS "missing.bin" 3 testStateLoaded =
      ⟨testStateLoaded.set_nfc none, ["Clearing NFC content"], [],
        .error (.fileError "missing.bin")⟩) ∧
    (nfc testFS "missing.bin" 3 testStateLoaded).state.nfc_content = none ∧
    (nfc testFS "missing.bin" 3 testStateLoaded).scheduled = [] :=
  nfc_clears_before_read testFS "missing.bin" 3 testStateLoaded (by decide) (by decide) rfl

/-- C4: the stick command validates in source order: an unknown side fails
with the invalid-side condition before any axis is selected; with a valid
side, an axis direction with no value fails with missing-value and with a
non-integer value fails with invalid-value, while an integer value sets
exactly the selected component of the selected stick; any direction outside
the presets and axis tokens fails with invalid-direction. -/
theorem stick_cmd_validation (side direction : String) (value : Option String)
    (st : ControllerState) :
    (¬ (side = "l" ∨ side = "left" ∨ side = "r" ∨ side = "right") →
      cmd_stick side direction value st = ⟨st, [], [], .error CmdError.invalidSide⟩) ∧
    ((side = "l" ∨ side = "left" ∨ side = "r" ∨ side = "right") →
      ((direction = "h" ∨ direction = "horizontal" ∨ direction = "v" ∨ direction = "vertical") →
        (value = none →
          cmd_stick side direction value st = ⟨st, [], [], .error CmdError.missingValue⟩) ∧
        (∀ s, value = some s → parseInt? s = none →
          cmd_stick side direction value st = ⟨st, [], [], .error (CmdError.invalidValue s)⟩)) ∧
      (∀ s n, value = some s → parseInt? s = some n →
        ((side = "l" ∨ side = "left") → (direction = "h" ∨ direction = "horizontal") →
          (cmd_stick side direction value st).state = { st with l_stick := st.l_stick.set_h n }) ∧
        ((side = "l" ∨ side = "left") → (direction = "v" ∨ direction = "vertical") →
          (cmd_stick side direction value st).state = { st with l_stick := st.l_stick.set_v n }) ∧
        ((side = "r" ∨ side = "right") → (direction = "h" ∨ direction = "horizontal") →
          (cmd_stick side direction value st).state = { st with r_stick := st.r_stick.set_h n }) ∧
        ((side = "r" ∨ side = "right") → (direction = "v" ∨ direction = "vertical") →
          (cmd_stick side direction value st).state = { st with r_stick := st.r_stick.set_v n })) ∧
      (direction ≠ "center" → direction ≠ "up" → direction ≠ "down" → direction ≠ "left" →
        direction ≠ "right" → direction ≠ "h" → direction ≠ "horizontal" → direction ≠ "v" →
        direction ≠ "vertical" →
        cmd_stick side direction value st =
          ⟨st, [], [], .error (CmdError.invalidDirection direction)⟩)) := by
  constructor
  · intro hside
    push_neg at hside
    obtain ⟨h1, h2, h3, h4⟩ := hside
    simp [cmd_stick, h1, h2, h3, h4]
  intro hside
  refine ⟨fun hdir => ⟨?_, ?_⟩, ?_, ?_⟩
  · rintro rfl
    rcases hside with rfl | rfl | rfl | rfl <;>
      rcases hdir with rfl | rfl | rfl | rfl <;>
        simp [cmd_stick, set_stick]
  · rintro s rfl hpn
    rcases hside with rfl | rfl | rfl | rfl <;>
      rcases hdir with rfl | rfl | rfl | rfl <;>
        simp [cmd_stick, set_stick, hpn]
  · rintro s n rfl hpn
    refine ⟨fun hs hd => ?_, fun hs hd => ?_, fun hs hd => ?_, fun hs hd => ?_⟩ <;>
      rcases hs with rfl | rfl <;> rcases hd with rfl | rfl <;>
        simp [cmd_stick, set_stick, hpn]
  · intro h1 h2 h3 h4 h5 h6 h7 h8 h9
    rcases hside with rfl | rfl | rfl | rfl <;>
      simp [cmd_stick, set_stick, h1, h2, h3, h4, h5, h6, h7, h8, h9]

/-- Witness for C4 at one concrete input per validation outcome. -/
theorem stick_cmd_validation_witness :
    (cmd_stick "x" "up" none testState = ⟨testState, [], [], .error CmdError.invalidSide⟩) ∧
    (cmd_stick "l" "h" none testState = ⟨testState, [], [], .error CmdError.missingValue⟩) ∧
    (cmd_stick "l" "h" (some "abc") testState =
      ⟨testState, [], [], .error (CmdError.invalidValue "abc")⟩) ∧
    ((cmd_stick "r" "h" (some "500") testState).state =
      { testState with r_stick := testState.r_stick.set_h 500 }) ∧
    (cmd_stick "l" "q" none testState =
      ⟨testState, [], [], .error (CmdError.invalidDirection "q")⟩) :=
  ⟨(stick_cmd_validation "x" "up" none testState).1 (by decide),
   (((stick_cmd_validation "l" "h" none testState).2 (by decide)).1 (by decide)).1 rfl,
   (((stick_cmd_validation "l" "h" (some "abc") testState).2 (by decide)).1 (by decide)).2
     "abc" rfl (by decide),
   ((((stick_cmd_validation "r" "h" (some "500") testState).2 (by decide)).2.1
     "500" 500 rfl (by decide)).2.2.1 (by decide) (by decide)),
   ((stick_cmd_validation "l" "q" none testState).2 (by decide)).2.2 (by decide) (by decide)
     (by decide) (by decide) (by decide) (by decide) (by decide) (by decide) (by decide)⟩

/-- Re-applying a successful `_set_stick` call to its own result stick
changes nothing: presets are absolute and direct sets overwrite one
component with the same value. -/
theorem set_stick_idem (stick s2 : StickState) (direction : String) (value : Option String)
    (msg : String) (h : set_stick stick direction value = .ok (s2, msg)) :
    set_stick s2 direction value = .ok (s2, msg) := by
  unfold set_stick at h ⊢
  split_ifs at h ⊢
  all_goals
    first
    | (simp only [Except.ok.injEq, Prod.mk.injEq] at h
       rcases h with ⟨rfl, rfl⟩
       rfl)
    | (cases value with
       | none => simp at h
       | some s =>
         dsimp only at h ⊢
         cases hpi : parseInt? s with
         | none => rw [hpi] at h; simp at h
         | some n =>
           rw [hpi] at h
           dsimp only at h ⊢
           simp only [Except.ok.injEq, Prod.mk.injEq] at h
           rcases h with ⟨rfl, rfl⟩
           rfl)

/-- C8: a direct horizontal set on the right stick changes only that
stick's horizontal component (its vertical component and the left stick are
untouched), and every successful stick command is idempotent: run again
from its own result state it returns the same state and message. -/
theorem stick_component_independence_idempotence (side direction : String)
    (value : Option String) (st : ControllerState) :
    (∀ s n, value = some s → parseInt? s = some n →
      (side = "r" ∨ side = "right") → (direction = "h" ∨ direction = "horizontal") →
      (cmd_stick side direction value st).state.r_stick.h = n ∧
      (cmd_stick side direction value st).state.r_stick.v = st.r_stick.v ∧
      (cmd_stick side direction value st).state.l_stick = st.l_stick) ∧
    (∀ st2 m, cmd_stick side direction value st = ⟨st2, [], [], .ok m⟩ →
      cmd_stick side direction value st2 = ⟨st2, [], [], .ok m⟩) := by
  constructor
  · rintro s n rfl hpn hs hd
    rcases hs with rfl | rfl <;> rcases hd with rfl | rfl <;>
      simp [cmd_stick, set_stick, hpn, StickState.set_h]
  · rintro st2 m heq
    unfold cmd_stick at heq ⊢
    split_ifs at heq ⊢ with h1 h2
    · cases hss : set_stick st.l_stick direction value with
      | error e =>
        rw [hss] at heq
        dsimp only at heq
        have hout := congrArg HandlerResult.outcome heq
        simp at hout
      | ok p =>
        obtain ⟨sk, msg⟩ := p
        rw [hss] at heq
        dsimp only at heq
        have hstate : ({ st with l_stick := sk } : ControllerState) = st2 :=
          congrArg HandlerResult.state heq
        have hout : (Except.ok (some msg) : Except CmdError (Option String)) = .ok m :=
          congrArg HandlerResult.outcome heq
        obtain rfl : some msg = m := Except.ok.inj hout
        subst hstate
        rw [show set_stick ({ st with l_stick := sk } : ControllerState).l_stick direction value
            = .ok (sk, msg) from set_stick_idem st.l_stick sk direction value msg hss]
    · cases hss : set_stick st.r_stick direction value with
      | error e =>
        rw [hss] at heq
        dsimp only at heq
        have hout := congrArg HandlerResult.outcome heq
        simp at hout
      | ok p =>
        obtain ⟨sk, msg⟩ := p
        rw [hss] at heq
        dsimp only at heq
        have hstate : ({ st with r_stick := sk } : ControllerState) = st2 :=
          congrArg HandlerResult.state heq
        have hout : (Except.ok (some msg) : Except CmdError (Option String)) = .ok m :=
          congrArg HandlerResult.outcome heq
        obtain rfl : some msg = m := Except.ok.inj hout
        subst hstate
        rw [show set_stick ({ st with r_stick := sk } : ControllerState).r_stick direction value
            = .ok (sk, msg) from set_stick_idem st.r_stick sk direction value msg hss]
    · have hout := congrArg HandlerResult.outcome heq
      simp at hout

/-- Witness for C8: `stick r h 500` at a concrete state, and its second
application from the once-applied state. -/
theorem stick_component_independence_idempotence_witness :
    ((cmd_stick "r" "h" (some "500") testState).state.r_stick.h = 500 ∧
     (cmd_stick "r" "h" (some "500") testState).state.r_stick.v = testState.r_stick.v ∧
     (cmd_stick "r" "h" (some "500") testState).state.l_stick = testState.l_stick) ∧
    (cmd_stick "r" "h" (some "500")
        { testState with r_stick := testState.r_stick.set_h 500 } =
      ⟨{ testState with r_stick := testState.r_stick.set_h 500 }, [], [],
        .ok (some "StickState was set to (500, 2048).")⟩) :=
  ⟨(stick_component_independence_idempotence "r" "h" (some "500") testState).1
     "500" 500 rfl (by decide) (by decide) (by decide),
   (stick_component_independence_idempotence "r" "h" (some "500") testState).2
     { testState with r_stick := testState.r_stick.set_h 500 }
     (some "StickState was set to (500, 2048).") rfl⟩
